import Mathlib

/-!
Shallow embedding of the device-control core of the mibox_socket repository
(custom_components/mipower): the bluetoothctl/bleak backend error taxonomy,
the retry helper, the wake and sleep sequences, the switch controller's
turn_on/turn_off state updates, MAC normalization/validation and the
diagnostics MAC masking, together with theorems settling the frozen claims.
-/

namespace MiPower

/-! ## Error taxonomy

Mirrors the exception classes of bluetoothctl.py: BluetoothCtlError (base),
BluetoothCtlTimeoutError, BluetoothCtlNotFoundError,
BluetoothCtlPairingRequestedError, BluetoothCtlEnvError, BluetoothCtlParseError.
Every constructor models a subclass of BluetoothCtlError; `baseE` models an
instance of the base class itself (as raised by bleak.py). -/
inductive BtErr where
  | timeoutE
  | notFoundE
  | pairingRequested
  | envE
  | parseE
  | baseE
  deriving DecidableEq, Repr

/-- The except-clause of switch.py _retrying catches exactly
BluetoothCtlTimeoutError and BluetoothCtlNotFoundError. -/
def retryable : BtErr → Bool
  | .timeoutE => true
  | .notFoundE => true
  | _ => false

/-! ## Retry policy (switch.py MiPowerSwitch._retrying)

The Python loop: attempt = 0; call the operation; on a retryable error,
attempt += 1; if attempt > retry_count re-raise, else sleep retry_delay and
loop. `remaining` here is retry_count minus the retries already consumed.
The operation is an oracle from call index (0-based) to outcome; the result
records (outcome, number of calls made, number of delay sleeps performed). -/
def retryingGo {α : Type} (op : Nat → Except BtErr α) :
    (i : Nat) → (remaining : Nat) → (Except BtErr α) × Nat × Nat
  | i, remaining =>
    match op i, remaining with
    | .ok a, _ => (.ok a, 1, 0)
    | .error e, 0 => (.error e, 1, 0)
    | .error e, r + 1 =>
      if retryable e then
        let p := retryingGo op (i + 1) r
        (p.1, p.2.1 + 1, p.2.2 + 1)
      else (.error e, 1, 0)

/-- _retrying with retry_count, starting at the operation's first call. -/
def retrying {α : Type} (retryCount : Nat) (op : Nat → Except BtErr α) :
    (Except BtErr α) × Nat × Nat :=
  retryingGo op 0 retryCount

/-! ## Normalized device info (switch.py MiPowerSwitch._do_info)

_do_info normalizes both the dict shape (bleak backend) and the BtInfo
dataclass (bluetoothctl backend) to one record with these six fields;
missing fields are None. -/
structure BtInfoN where
  connected : Option Bool
  paired : Option Bool
  trusted : Option Bool
  devName : Option String
  address : Option String
  raw : Option String
  deriving DecidableEq, Repr

/-- Backend behaviour for one wake or sleep sequence: each client operation
is an oracle from its own 0-based call index to an outcome. `infoRes` is
the composite outcome of _do_info (client construction + client.info +
normalization); `fallbackConnectRes` is the connect of the fallback
BluetoothCtlClient built inside _wake_sequence. -/
structure BackendEnv where
  infoRes : Nat → Except BtErr BtInfoN
  connectRes : Nat → Except BtErr String
  disconnectRes : Nat → Except BtErr String
  fallbackConnectRes : Nat → Except BtErr String
  powerOffRes : Nat → Except BtErr String

/-- How many times each client operation was invoked during a sequence. -/
structure CallCounts where
  infoCalls : Nat
  connectCalls : Nat
  disconnectCalls : Nat
  fallbackConnectCalls : Nat
  powerOffCalls : Nat
  deriving DecidableEq, Repr

/-- Tail of _wake_sequence after a successful connect (primary or fallback):
sleep(disconnect_delay); best-effort disconnect (any BluetoothCtlError is
swallowed); verify with _do_info; line 377 returns True whenever the verify
info call itself returns (connected True, False and None all count as
success), and False only when the verify call raises (caught by the outer
except clauses). -/
def wakeTail (retryCount : Nat) (env : BackendEnv)
    (infoC connC fbC : Nat) : Bool × CallCounts :=
  let r3 := retrying retryCount env.disconnectRes
  let r4 := retryingGo env.infoRes infoC retryCount
  match r4.1 with
  | .error _ => (false, ⟨infoC + r4.2.1, connC, r3.2.1, fbC, 0⟩)
  | .ok _ => (true, ⟨infoC + r4.2.1, connC, r3.2.1, fbC, 0⟩)

/-- switch.py MiPowerSwitch._wake_sequence: info through _retrying (any
error is caught by the outer except clauses and yields False); short-circuit
to True if already connected; connect through _retrying with
BluetoothCtlPairingRequestedError aborting (False) and any other
BluetoothCtlError triggering the fallback BluetoothCtlClient connect, whose
pairing-requested or other failure also yields False; then the wakeTail. -/
def wakeSequence (retryCount : Nat) (env : BackendEnv) : Bool × CallCounts :=
  let r1 := retrying retryCount env.infoRes
  match r1.1 with
  | .error _ => (false, ⟨r1.2.1, 0, 0, 0, 0⟩)
  | .ok infoBefore =>
    if infoBefore.connected = some true then
      (true, ⟨r1.2.1, 0, 0, 0, 0⟩)
    else
      let r2 := retrying retryCount env.connectRes
      match r2.1 with
      | .ok _ => wakeTail retryCount env r1.2.1 r2.2.1 0
      | .error .pairingRequested => (false, ⟨r1.2.1, r2.2.1, 0, 0, 0⟩)
      | .error _ =>
        let r5 := retrying retryCount env.fallbackConnectRes
        match r5.1 with
        | .ok _ => wakeTail retryCount env r1.2.1 r2.2.1 r5.2.1
        | .error _ => (false, ⟨r1.2.1, r2.2.1, 0, r5.2.1, 0⟩)

/-- The configured sleep command type (const.py SLEEP_CMD_DISCONNECT and
SLEEP_CMD_POWER_OFF). -/
inductive SleepCmd where
  | disconnectCmd
  | powerOffCmd
  deriving DecidableEq, Repr

/-- Verification tail of _sleep_sequence: info through _retrying (an error
is caught by the outer except clauses and yields False); then
return (connected is False) or (connected is None). -/
def sleepVerify (retryCount : Nat) (env : BackendEnv) (c : CallCounts) :
    Bool × CallCounts :=
  let r := retrying retryCount env.infoRes
  match r.1 with
  | .error _ => (false, { c with infoCalls := r.2.1 })
  | .ok i =>
    (decide (i.connected = some false ∨ i.connected = none),
     { c with infoCalls := r.2.1 })

/-- switch.py MiPowerSwitch._sleep_sequence: power_off(None) or
disconnect(mac) through _retrying (pairing-requested on power_off is caught
inside and yields False; every other escaping error reaches the outer
except clauses and also yields False), then the info post-check. -/
def sleepSequence (retryCount : Nat) (cmd : SleepCmd) (env : BackendEnv) :
    Bool × CallCounts :=
  match cmd with
  | .powerOffCmd =>
    let r := retrying retryCount env.powerOffRes
    match r.1 with
    | .error _ => (false, ⟨0, 0, 0, 0, r.2.1⟩)
    | .ok _ => sleepVerify retryCount env ⟨0, 0, 0, 0, r.2.1⟩
  | .disconnectCmd =>
    let r := retrying retryCount env.disconnectRes
    match r.1 with
    | .error _ => (false, ⟨0, 0, r.2.1, 0, 0⟩)
    | .ok _ => sleepVerify retryCount env ⟨0, 0, r.2.1, 0, 0⟩

/-! ## Switch controller state (switch.py MiPowerSwitch) -/

/-- The mutable entity fields async_turn_on / async_turn_off touch:
_attr_available and _is_on_cached. -/
structure SwitchState where
  available : Bool
  isOnCached : Option Bool
  deriving DecidableEq, Repr

/-- async_turn_on: set _attr_available = True; run _wake_sequence (which
never raises: every exception class is caught inside it); on True set
_is_on_cached = True, on False set _attr_available = False leaving
_is_on_cached unchanged. Also returns the sequence outcome and the backend
call counts of this one command. -/
def asyncTurnOn (retryCount : Nat) (env : BackendEnv) (st : SwitchState) :
    SwitchState × (Bool × CallCounts) :=
  let r := wakeSequence retryCount env
  if r.1 then
    (⟨true, some true⟩, r)
  else
    (⟨false, st.isOnCached⟩, r)

/-- async_turn_off: same shape with _sleep_sequence and
_is_on_cached = False on success. -/
def asyncTurnOff (retryCount : Nat) (cmd : SleepCmd) (env : BackendEnv)
    (st : SwitchState) : SwitchState × (Bool × CallCounts) :=
  let r := sleepSequence retryCount cmd env
  if r.1 then
    (⟨true, some false⟩, r)
  else
    (⟨false, st.isOnCached⟩, r)

/-! ## CLI backend subprocess runner (bluetoothctl.py BluetoothCtlClient._run)

bluetoothctl.py binds exactly these module-level names through its import
statements: `import asyncio`, `import logging`, `import shlex`,
`from dataclasses import dataclass`, `from typing import Optional`.
The timeout handler of _run executes, inside the
`except asyncio.TimeoutError` clause, the statement
`with contextlib.suppress(Exception): proc.kill()` followed by
`raise BluetoothCtlTimeoutError(...)`. Evaluating `contextlib.suppress`
first resolves the name `contextlib`; if it is not bound in the module
(and it is not a Python builtin), a NameError is raised at that point, so
neither proc.kill() nor the raise of BluetoothCtlTimeoutError is reached. -/
def bluetoothctlImports : List String :=
  ["asyncio", "logging", "shlex", "dataclass", "Optional"]

/-- Whether the name `contextlib` is bound at module level in
bluetoothctl.py. -/
def contextlibBound : Bool := bluetoothctlImports.contains "contextlib"

/-- Outcome classes of _run itself (before output classification). -/
inductive RunErr where
  | timeoutE
  | envE (msg : String)
  | nameErr (missing : String)
  deriving DecidableEq, Repr

/-- Behaviour of the spawned bluetoothctl subprocess: it either responds
within the timeout or exceeds the wall-clock bound. -/
inductive ProcBehavior where
  | respond (out : String)
  | hang
  deriving DecidableEq, Repr

/-- _run of bluetoothctl.py, as a function of whether `contextlib` is bound
and of the subprocess behaviour. The Bool records whether proc.kill() was
executed. On a respond the output is returned; on a timeout, the handler
first evaluates `contextlib.suppress(Exception)`: with the name bound the
process is killed and BluetoothCtlTimeoutError is raised, with the name
unbound a NameError escapes before the kill. -/
def runResult (ctxBound : Bool) (pb : ProcBehavior) :
    (Except RunErr String) × Bool :=
  match pb with
  | .respond out => (.ok out, false)
  | .hang =>
    if ctxBound then (.error .timeoutE, true)
    else (.error (.nameErr "contextlib"), false)

/-! ## Native backend power_off (bleak.py BleakClient.power_off)

`power_off(mac=None)` raises BluetoothCtlError("power_off requires mac for
BleakClient") when mac is None, and otherwise performs self.disconnect(mac)
and returns "power_off". The disconnect outcome is passed as an oracle. -/
def bleakPowerOff (disconnectOutcome : Except BtErr String)
    (mac : Option String) : Except BtErr String :=
  match mac with
  | none => .error .baseE
  | some _ =>
    match disconnectOutcome with
    | .ok _ => .ok "power_off"
    | .error e => .error e

/-! ## MAC normalization and validation (const.py)

Python strings are modelled as lists of Unicode code points (Nat). The
helpers below model str.strip() and str.upper() on the ASCII range, which
covers every character MAC_REGEX admits. -/

/-- ASCII whitespace stripped by str.strip(). -/
def isPySpace (c : Nat) : Bool :=
  decide (c = 32 ∨ c = 9 ∨ c = 10 ∨ c = 13 ∨ c = 11 ∨ c = 12)

/-- str.upper() on one ASCII code point: lowercase letters a-z map to A-Z,
everything else is unchanged. -/
def upperChar (c : Nat) : Nat :=
  if 97 ≤ c ∧ c ≤ 122 then c - 32 else c

/-- str.strip(): drop leading and trailing whitespace. -/
def pyStrip (s : List Nat) : List Nat :=
  ((s.dropWhile isPySpace).reverse.dropWhile isPySpace).reverse

/-- str.upper() character by character. -/
def pyUpper (s : List Nat) : List Nat := s.map upperChar

/-- const.py normalize_mac: mac.strip().upper(). -/
def normalize_mac (s : List Nat) : List Nat := pyUpper (pyStrip s)

/-- One hex digit [0-9A-Fa-f] as a code point. -/
def hexDigit (c : Nat) : Bool :=
  decide ((48 ≤ c ∧ c ≤ 57) ∨ (65 ≤ c ∧ c ≤ 70) ∨ (97 ≤ c ∧ c ≤ 102))

/-- One uppercase hex digit [0-9A-F] as a code point. -/
def upperHexDigit (c : Nat) : Bool :=
  decide ((48 ≤ c ∧ c ≤ 57) ∨ (65 ≤ c ∧ c ≤ 70))

/-- Matcher for ([0-9A-Fa-f]{2}:){k}[0-9A-Fa-f]{2} anchored at both ends:
k colon-terminated hex pairs followed by one final hex pair. 58 is the code
point of the colon. -/
def macGroups : Nat → List Nat → Bool
  | 0, [a, b] => hexDigit a && hexDigit b
  | k + 1, a :: b :: c :: rest =>
    hexDigit a && hexDigit b && decide (c = 58) && macGroups k rest
  | _, _ => false

/-- const.py MAC_REGEX fullmatch: ^([0-9A-Fa-f]{2}:){5}([0-9A-Fa-f]{2})$ -/
def macRegexMatch (s : List Nat) : Bool := macGroups 5 s

/-- The same shape with uppercase hex digits only: the meaning of
"uppercase colon-separated hex". -/
def macUpperGroups : Nat → List Nat → Bool
  | 0, [a, b] => upperHexDigit a && upperHexDigit b
  | k + 1, a :: b :: c :: rest =>
    upperHexDigit a && upperHexDigit b && decide (c = 58) && macUpperGroups k rest
  | _, _ => false

/-- Uppercase colon-separated six-octet hex address. -/
def macUpperMatch (s : List Nat) : Bool := macUpperGroups 5 s

/-- const.py is_valid_mac: MAC_REGEX.match(mac.strip()) is not None.
MAC_REGEX is anchored on both sides, so match coincides with fullmatch. -/
def is_valid_mac (s : List Nat) : Bool := macRegexMatch (pyStrip s)

/-! ## Diagnostics MAC masking (diagnostics.py _mask_mac) -/

/-- Python str.split(":") on code-point lists: splitting the empty string
yields one empty part. 58 is the colon. -/
def splitColon : List Nat → List (List Nat)
  | [] => [[]]
  | c :: rest =>
    let r := splitColon rest
    if c = 58 then [] :: r
    else
      match r with
      | [] => [[c]]
      | h :: t => (c :: h) :: t

/-- Python ":".join on code-point lists. -/
def joinColon : List (List Nat) → List Nat
  | [] => []
  | [p] => p
  | p :: ps => p ++ 58 :: joinColon ps

/-- Code points of the string UNKNOWN. -/
def strUnknown : List Nat := [85, 78, 75, 78, 79, 87, 78]

/-- diagnostics.py _mask_mac: empty/None input maps to "UNKNOWN"; a string
splitting into exactly 6 colon-separated parts keeps the first 4 and
replaces the last 2 by "**"; anything else is returned unchanged.
42 is the code point of the asterisk. -/
def maskMac (s : List Nat) : List Nat :=
  if s = [] then strUnknown
  else
    let parts := splitColon s
    if parts.length = 6 then joinColon (parts.take 4 ++ [[42, 42], [42, 42]])
    else s

/-! ## Concrete operations and environments used as test inputs -/

/-- Operation raising BluetoothCtlTimeoutError on its first 3 calls, then
succeeding. -/
def opTimeout3 : Nat → Except BtErr Nat :=
  fun i => if i < 3 then .error .timeoutE else .ok 7

/-- Operation raising BluetoothCtlTimeoutError on its first 2 calls, then
succeeding. -/
def opTimeout2 : Nat → Except BtErr Nat :=
  fun i => if i < 2 then .error .timeoutE else .ok 7

/-- Normalized info of a device that is not connected. -/
def infoOff : BtInfoN := ⟨some false, none, none, none, none, none⟩

/-- Normalized info of a device that is connected. -/
def infoOn : BtInfoN := ⟨some true, none, none, none, none, none⟩

/-- Backend in which every operation succeeds and the device starts
disconnected: info reports connected = False, connect and disconnect
succeed. -/
def envOk : BackendEnv :=
  ⟨fun _ => .ok infoOff, fun _ => .ok "connected", fun _ => .ok "disconnected",
   fun _ => .ok "connected", fun _ => .ok "ok"⟩

/-- Backend in which every info call raises BluetoothCtlTimeoutError. -/
def envInfoTimeout : BackendEnv :=
  ⟨fun _ => .error .timeoutE, fun _ => .ok "connected", fun _ => .ok "disconnected",
   fun _ => .ok "connected", fun _ => .ok "ok"⟩

/-- Backend in which the device is disconnected and every connect call
raises BluetoothCtlPairingRequestedError. -/
def envPairingOnConnect : BackendEnv :=
  ⟨fun _ => .ok infoOff, fun _ => .error .pairingRequested, fun _ => .ok "disconnected",
   fun _ => .ok "connected", fun _ => .ok "ok"⟩

/-- Backend in which disconnect and power_off succeed but the device still
reports connected = True afterwards. -/
def envStillConnected : BackendEnv :=
  ⟨fun _ => .ok infoOn, fun _ => .ok "connected", fun _ => .ok "disconnected",
   fun _ => .ok "connected", fun _ => .ok "ok"⟩

/-- Backend in which the device is already connected and every other
operation would fail if it were ever called. -/
def envAlreadyOn : BackendEnv :=
  ⟨fun _ => .ok infoOn, fun _ => .error .baseE, fun _ => .error .baseE,
   fun _ => .error .baseE, fun _ => .error .baseE⟩

/-- Code points of " e0:b6:55:52:6c:00 ": a valid MAC in lowercase with
surrounding whitespace. -/
def sampleMacRaw : List Nat :=
  [32, 101, 48, 58, 98, 54, 58, 53, 53, 58, 53, 50, 58, 54, 99, 58, 48, 48, 32]

/-- Code points of "AA:BB:CC:DD:EE:FF". -/
def macAA : List Nat :=
  [65, 65, 58, 66, 66, 58, 67, 67, 58, 68, 68, 58, 69, 69, 58, 70, 70]

/-- Code points of "AA:BB:CC:DD:**:**". -/
def macAAMasked : List Nat :=
  [65, 65, 58, 66, 66, 58, 67, 67, 58, 68, 68, 58, 42, 42, 58, 42, 42]

/-! ## Helper lemmas about the retry policy -/

/-- A call whose first try succeeds consumes exactly one call and no
retry delay, for any retry budget. -/
theorem retryingGo_first_ok {α : Type} (op : Nat → Except BtErr α) (a : α)
    (i r : Nat) (h : op i = .ok a) : retryingGo op i r = (.ok a, 1, 0) := by
  rw [retryingGo.eq_def]
  simp only [h]

/-- A call whose first try raises a non-retryable error consumes exactly
one call and no retry delay, for any retry budget. -/
theorem retryingGo_first_fatal {α : Type} (op : Nat → Except BtErr α)
    (e : BtErr) (i r : Nat) (h : op i = .error e)
    (hf : retryable e = false) : retryingGo op i r = (.error e, 1, 0) := by
  rw [retryingGo.eq_def]
  cases r <;> simp [h, hf]

/-- retrying specialization of retryingGo_first_ok. -/
theorem retrying_first_ok {α : Type} (op : Nat → Except BtErr α) (a : α)
    (rc : Nat) (h : op 0 = .ok a) : retrying rc op = (.ok a, 1, 0) :=
  retryingGo_first_ok op a 0 rc h

/-- retrying specialization of retryingGo_first_fatal. -/
theorem retrying_first_fatal {α : Type} (op : Nat → Except BtErr α)
    (e : BtErr) (rc : Nat) (h : op 0 = .error e)
    (hf : retryable e = false) : retrying rc op = (.error e, 1, 0) :=
  retryingGo_first_fatal op e 0 rc h hf

/-- _retrying makes at least one and at most remaining+1 calls, and sleeps
exactly once between consecutive calls (calls - 1 times in total). -/
theorem retryingGo_bounds {α : Type} (op : Nat → Except BtErr α) :
    ∀ (r i : Nat),
      1 ≤ (retryingGo op i r).2.1 ∧ (retryingGo op i r).2.1 ≤ r + 1 ∧
      (retryingGo op i r).2.2 = (retryingGo op i r).2.1 - 1 := by
  intro r
  induction r with
  | zero =>
    intro i
    rw [retryingGo.eq_def]
    cases hop : op i with
    | ok a => simp [hop]
    | error e => simp [hop]
  | succ r ih =>
    intro i
    rw [retryingGo.eq_def]
    cases hop : op i with
    | ok a => simp [hop]
    | error e =>
      simp only [hop]
      by_cases hr : retryable e = true
      · simp only [hr, if_true]
        obtain ⟨h1, h2, h3⟩ := ih (i + 1)
        omega
      · simp only [Bool.not_eq_true] at hr
        simp [hr]

/-- The outcome/count pair of async_turn_on is exactly the wake sequence
result: the entity-state update does not change or consume it. -/
theorem asyncTurnOn_snd (rc : Nat) (env : BackendEnv) (st : SwitchState) :
    (asyncTurnOn rc env st).2 = wakeSequence rc env := by
  cases h : (wakeSequence rc env).1 <;> simp [asyncTurnOn, h]

/-- wakeTail never removes info calls: the verify step only adds to the
info-call counter it receives. -/
theorem wakeTail_info_ge (rc : Nat) (env : BackendEnv) (infoC connC fbC : Nat) :
    infoC ≤ (wakeTail rc env infoC connC fbC).2.infoCalls := by
  unfold wakeTail
  cases h : (retryingGo env.infoRes infoC rc).1 <;> simp [h]

/-- Every run of _wake_sequence invokes _do_info at least once. -/
theorem wakeSequence_info_pos (rc : Nat) (env : BackendEnv) :
    1 ≤ (wakeSequence rc env).2.infoCalls := by
  have h1 : 1 ≤ (retryingGo env.infoRes 0 rc).2.1 :=
    (retryingGo_bounds env.infoRes rc 0).1
  have hT : ∀ connC fbC,
      1 ≤ (wakeTail rc env (retryingGo env.infoRes 0 rc).2.1 connC fbC).2.infoCalls :=
    fun connC fbC => le_trans h1 (wakeTail_info_ge rc env _ connC fbC)
  unfold wakeSequence retrying
  cases hres : (retryingGo env.infoRes 0 rc).1 with
  | error e => simpa [hres] using h1
  | ok i =>
    by_cases hconn : i.connected = some true
    · simpa [hres, hconn] using h1
    · simp only [hres]
      rw [if_neg hconn]
      cases hc : (retryingGo env.connectRes 0 rc).1 with
      | ok s => simpa [hc] using hT _ _
      | error e =>
        cases e with
        | pairingRequested => simpa [hc] using h1
        | timeoutE =>
          simp only [hc]
          cases hf : (retryingGo env.fallbackConnectRes 0 rc).1 with
          | ok s2 => simpa [hf] using hT _ _
          | error e2 => simpa [hf] using h1
        | notFoundE =>
          simp only [hc]
          cases hf : (retryingGo env.fallbackConnectRes 0 rc).1 with
          | ok s2 => simpa [hf] using hT _ _
          | error e2 => simpa [hf] using h1
        | envE =>
          simp only [hc]
          cases hf : (retryingGo env.fallbackConnectRes 0 rc).1 with
          | ok s2 => simpa [hf] using hT _ _
          | error e2 => simpa [hf] using h1
        | parseE =>
          simp only [hc]
          cases hf : (retryingGo env.fallbackConnectRes 0 rc).1 with
          | ok s2 => simpa [hf] using hT _ _
          | error e2 => simpa [hf] using h1
        | baseE =>
          simp only [hc]
          cases hf : (retryingGo env.fallbackConnectRes 0 rc).1 with
          | ok s2 => simpa [hf] using hT _ _
          | error e2 => simpa [hf] using h1

/-! ## Claim theorems -/

/-- Claim C1 (code bug witness): on a subprocess that exceeds the timeout
bound, _run of bluetoothctl.py does not raise BluetoothCtlTimeoutError and
does not kill the process. The module never imports contextlib, so the
timeout handler statement `with contextlib.suppress(Exception)` raises a
NameError before proc.kill() and before the intended raise of
BluetoothCtlTimeoutError, contradicting the docstring of _run. -/
theorem cli_timeout_is_name_error_bug :
    contextlibBound = false ∧
    runResult contextlibBound ProcBehavior.hang
      = (Except.error (RunErr.nameErr "contextlib"), false) := by
  constructor
  · rfl
  · rfl

/-- Claim C2 (counterexample): there is no debounce gate. With a backend in
which every operation succeeds, a second back-to-back turn_on() is not
ignored: it performs its own backend calls (2 info calls, 1 connect call,
1 disconnect call), and in total the two calls launch two wake sequences
with 2 connect calls, not one. -/
theorem debounce_two_turn_on_cex :
    (asyncTurnOn 0 envOk ((asyncTurnOn 0 envOk ⟨true, none⟩).1)).2.2
      = (⟨2, 1, 1, 0, 0⟩ : CallCounts) ∧
    (asyncTurnOn 0 envOk ((asyncTurnOn 0 envOk ⟨true, none⟩).1)).2.2
      ≠ (⟨0, 0, 0, 0, 0⟩ : CallCounts) ∧
    (asyncTurnOn 0 envOk ⟨true, none⟩).2.2.connectCalls
      + (asyncTurnOn 0 envOk ((asyncTurnOn 0 envOk ⟨true, none⟩).1)).2.2.connectCalls
      = 2 := by
  refine ⟨rfl, ?_, rfl⟩
  intro h
  rw [show (asyncTurnOn 0 envOk ((asyncTurnOn 0 envOk ⟨true, none⟩).1)).2.2
      = (⟨2, 1, 1, 0, 0⟩ : CallCounts) from rfl] at h
  simp at h

/-- Claim C2 (amended): the controller applies no debounce. Every
turn_on() call, whatever its spacing from the previous command,
launches a wake sequence that performs at least one backend info call,
so a repeated command is never ignored. -/
theorem turn_on_never_ignored (rc : Nat) (env : BackendEnv) (st : SwitchState) :
    1 ≤ ((asyncTurnOn rc env st).2.2).infoCalls := by
  rw [asyncTurnOn_snd]
  exact wakeSequence_info_pos rc env

/-- Claim C3 (counterexample): after a failed wake, async_turn_on sets
_attr_available = False; the switch does not remain available. -/
theorem failed_wake_marks_unavailable_cex :
    ((asyncTurnOn 0 envInfoTimeout ⟨true, some true⟩).1).available = false := by
  rfl

/-- Claim C3 (amended): async_turn_on and async_turn_off never propagate a
backend error (the sequences are total, mapping every error to False);
availability afterwards equals the sequence outcome, so a failure marks the
entity unavailable rather than leaving it available; the failure changes no
cached on/off state; and the unavailability is not permanent, since a
command does not read the availability flag: a later turn_on behaves
identically from an unavailable state and restores availability when the
wake succeeds. -/
theorem turn_commands_no_raise_and_recover (rc : Nat) (cmd : SleepCmd)
    (env : BackendEnv) (st : SwitchState) :
    ((asyncTurnOn rc env st).1.available = (wakeSequence rc env).1) ∧
    ((asyncTurnOff rc cmd env st).1.available = (sleepSequence rc cmd env).1) ∧
    (asyncTurnOn rc env ⟨false, st.isOnCached⟩
      = asyncTurnOn rc env ⟨true, st.isOnCached⟩) ∧
    ((wakeSequence rc env).1 = false →
      (asyncTurnOn rc env st).1.isOnCached = st.isOnCached) ∧
    ((wakeSequence rc env).1 = true →
      (asyncTurnOn rc env st).1 = ⟨true, some true⟩) := by
  refine ⟨?_, ?_, ?_, ?_, ?_⟩
  · cases h : (wakeSequence rc env).1 <;> simp [asyncTurnOn, h]
  · cases h : (sleepSequence rc cmd env).1 <;> simp [asyncTurnOff, h]
  · cases h : (wakeSequence rc env).1 <;> simp [asyncTurnOn, h]
  · intro h; simp [asyncTurnOn, h]
  · intro h; simp [asyncTurnOn, h]

/-- Claim C3 (amended, witness): concrete run of the amended statement with
a failing backend; the failed wake leaves the cached state unchanged, and a
subsequent successful turn_on from the unavailable state restores
availability. -/
theorem turn_commands_no_raise_and_recover_witness :
    ((asyncTurnOn 0 envInfoTimeout ⟨true, some true⟩).1.available
      = (wakeSequence 0 envInfoTimeout).1) ∧
    ((asyncTurnOn 0 envInfoTimeout ⟨true, some true⟩).1.isOnCached = some true) ∧
    ((asyncTurnOn 0 envOk ⟨false, none⟩).1 = ⟨true, some true⟩) := by
  refine ⟨(turn_commands_no_raise_and_recover 0 .disconnectCmd envInfoTimeout
    ⟨true, some true⟩).1, ?_, ?_⟩
  · exact (turn_commands_no_raise_and_recover 0 .disconnectCmd envInfoTimeout
      ⟨true, some true⟩).2.2.2.1 rfl
  · exact (turn_commands_no_raise_and_recover 0 .disconnectCmd envOk
      ⟨false, none⟩).2.2.2.2 rfl

/-- Claim C4 (counterexample): with max_attempts = 2 and zero delay, an
operation that raises Timeout on its first 3 calls and then succeeds does
NOT return success: _retrying makes exactly 3 calls (2 sleeps between
them), never reaches the 4th call that would succeed, and re-raises the
Timeout. -/
theorem retry_example_returns_timeout_cex :
    retrying 2 opTimeout3 = (Except.error BtErr.timeoutE, 3, 2) ∧
    (retrying 2 opTimeout3).1 ≠ Except.ok 7 := by
  refine ⟨rfl, ?_⟩
  intro h
  rw [show (retrying 2 opTimeout3).1 = Except.error BtErr.timeoutE from rfl] at h
  simp at h

/-- Claim C4 (amended): with max_attempts = 2 and zero delay, an operation
that raises Timeout on its first 2 calls and then succeeds returns success
after exactly 3 calls (2 sleeps); one that raises Timeout on its first 3
calls is re-raised after exactly 3 calls; and in general _retrying makes at
most max_attempts + 1 calls, with the delay slept exactly between
consecutive calls (calls - 1 times), never after the last. -/
theorem retry_policy_bounds :
    retrying 2 opTimeout2 = (Except.ok 7, 3, 2) ∧
    retrying 2 opTimeout3 = (Except.error BtErr.timeoutE, 3, 2) ∧
    ∀ (α : Type) (rc : Nat) (op : Nat → Except BtErr α),
      (retrying rc op).2.1 ≤ rc + 1 ∧
      (retrying rc op).2.2 = (retrying rc op).2.1 - 1 := by
  refine ⟨rfl, rfl, ?_⟩
  intro α rc op
  obtain ⟨_, h2, h3⟩ := retryingGo_bounds op rc 0
  exact ⟨h2, h3⟩

/-- Claim C5: when the first info call reports the device not connected and
the connect step raises BluetoothCtlPairingRequestedError on its first try,
the error propagates through _retrying without any retry (exactly one
connect call), the wake result is failure, and neither the disconnect step
nor the fallback connect is ever attempted. -/
theorem wake_pairing_aborts (rc : Nat) (env : BackendEnv) (i0 : BtInfoN)
    (h1 : env.infoRes 0 = .ok i0) (h2 : i0.connected ≠ some true)
    (h3 : env.connectRes 0 = .error .pairingRequested) :
    wakeSequence rc env = (false, ⟨1, 1, 0, 0, 0⟩) := by
  have hi := retrying_first_ok env.infoRes i0 rc h1
  have hc := retrying_first_fatal env.connectRes .pairingRequested rc h3 rfl
  simp only [retrying] at hi hc
  unfold wakeSequence retrying
  rw [hi, hc]
  simp only
  rw [if_neg h2]

/-- Claim C5 (witness): concrete backend where the device is off and
connect demands pairing; the wake makes one info call, one connect call,
no disconnect, no fallback, and fails. -/
theorem wake_pairing_aborts_witness :
    wakeSequence 3 envPairingOnConnect = (false, ⟨1, 1, 0, 0, 0⟩) :=
  wake_pairing_aborts 3 envPairingOnConnect infoOff rfl (by decide) rfl

/-- Claim C6: in _sleep_sequence, once the disconnect step (or, for the
power_off configuration, the power_off step) succeeds on its first try and
the post-check info call returns a result on its first try, the declared
outcome is exactly whether that result reports connected as False or None:
a post-check connected = True yields failure. -/
theorem sleep_postcheck_connected (rc : Nat) (env : BackendEnv)
    (s1 s2 : String) (i : BtInfoN)
    (hd : env.disconnectRes 0 = .ok s1) (hp : env.powerOffRes 0 = .ok s2)
    (hi : env.infoRes 0 = .ok i) :
    (sleepSequence rc .disconnectCmd env).1
      = decide (i.connected = some false ∨ i.connected = none) ∧
    (sleepSequence rc .powerOffCmd env).1
      = decide (i.connected = some false ∨ i.connected = none) := by
  have h1 := retrying_first_ok env.disconnectRes s1 rc hd
  have h2 := retrying_first_ok env.powerOffRes s2 rc hp
  have h3 := retrying_first_ok env.infoRes i rc hi
  constructor <;> simp [sleepSequence, sleepVerify, h1, h2, h3]

/-- Claim C6 (witness): concrete backend where disconnect and power_off
succeed but the post-check still reports connected = True; both sleep
configurations declare failure. -/
theorem sleep_postcheck_connected_witness :
    (sleepSequence 1 .disconnectCmd envStillConnected).1 = false ∧
    (sleepSequence 1 .powerOffCmd envStillConnected).1 = false := by
  have h := sleep_postcheck_connected 1 envStillConnected "disconnected" "ok"
    infoOn rfl rfl rfl
  simpa using h

/-- Claim C7: when the first info call reports connected = True,
_wake_sequence returns success after exactly that one info call, with no
connect, disconnect, fallback-connect or power_off call. -/
theorem wake_noop_when_connected (rc : Nat) (env : BackendEnv) (i0 : BtInfoN)
    (h1 : env.infoRes 0 = .ok i0) (h2 : i0.connected = some true) :
    wakeSequence rc env = (true, ⟨1, 0, 0, 0, 0⟩) := by
  have hi := retrying_first_ok env.infoRes i0 rc h1
  simp only [retrying] at hi
  unfold wakeSequence retrying
  rw [hi]
  simp [h2]

/-- Claim C7 (witness): concrete backend where the device is already
connected and every other operation would fail if called; the wake
sequence is a one-info-call no-op success. -/
theorem wake_noop_when_connected_witness :
    wakeSequence 2 envAlreadyOn = (true, ⟨1, 0, 0, 0, 0⟩) :=
  wake_noop_when_connected 2 envAlreadyOn infoOn rfl rfl

/-- Claim C10: with sleep_command_type = power_off and the bleak backend,
_sleep_sequence always fails: it calls client.power_off(None), and
BleakClient.power_off raises BluetoothCtlError whenever the mac is None,
an error _retrying does not retry; whatever the other operations would do,
the sleep makes exactly one power_off call and returns False. -/
theorem bleak_power_off_sleep_fails (rc : Nat)
    (iRes : Nat → Except BtErr BtInfoN)
    (cRes dRes fRes dOut : Nat → Except BtErr String) :
    sleepSequence rc .powerOffCmd
      ⟨iRes, cRes, dRes, fRes, fun k => bleakPowerOff (dOut k) none⟩
      = (false, ⟨0, 0, 0, 0, 1⟩) := by
  have h : (fun k => bleakPowerOff (dOut k) none) 0
      = Except.error BtErr.baseE := rfl
  have h2 := retrying_first_fatal (fun k => bleakPowerOff (dOut k) none)
    BtErr.baseE rc h rfl
  simp [sleepSequence, h2]

/-! ## Lemmas for MAC normalization and masking -/

/-- str.upper() is idempotent on one code point. -/
theorem upperChar_idem (c : Nat) : upperChar (upperChar c) = upperChar c := by
  unfold upperChar
  split_ifs <;> omega

/-- Uppercasing a hex digit yields an uppercase hex digit, which is
neither whitespace nor a colon. -/
theorem hexDigit_upper (c : Nat) (h : hexDigit c = true) :
    upperHexDigit (upperChar c) = true := by
  simp only [hexDigit, decide_eq_true_eq] at h
  simp only [upperHexDigit, upperChar, decide_eq_true_eq]
  split_ifs <;> omega

/-- An uppercase hex digit or a colon is not whitespace. -/
theorem upperHex_not_space (c : Nat) (h : upperHexDigit c = true ∨ c = 58) :
    isPySpace c = false := by
  simp only [upperHexDigit, decide_eq_true_eq] at h
  simp only [isPySpace, decide_eq_false_iff_not]
  omega

/-- Uppercasing preserves the hex-pairs-with-colons shape and makes every
hex digit uppercase. -/
theorem macGroups_upper : ∀ (k : Nat) (s : List Nat), macGroups k s = true →
    macUpperGroups k (s.map upperChar) = true := by
  intro k
  induction k with
  | zero =>
    intro s h
    rcases s with _ | ⟨a, _ | ⟨b, _ | ⟨c, t⟩⟩⟩ <;> simp [macGroups] at h
    obtain ⟨ha, hb⟩ := h
    simp only [List.map, macUpperGroups, Bool.and_eq_true]
    exact ⟨hexDigit_upper a ha, hexDigit_upper b hb⟩
  | succ k ih =>
    intro s h
    rcases s with _ | ⟨a, _ | ⟨b, _ | ⟨c, t⟩⟩⟩ <;> simp [macGroups] at h
    obtain ⟨⟨⟨ha, hb⟩, hc⟩, ht⟩ := h
    subst hc
    simp only [List.map, macUpperGroups, Bool.and_eq_true, decide_eq_true_eq]
    exact ⟨⟨⟨hexDigit_upper a ha, hexDigit_upper b hb⟩, rfl⟩, ih t ht⟩

/-- Every character of an uppercase-shaped MAC is an uppercase hex digit
or a colon. -/
theorem macUpperGroups_chars : ∀ (k : Nat) (s : List Nat),
    macUpperGroups k s = true → ∀ c ∈ s, upperHexDigit c = true ∨ c = 58 := by
  intro k
  induction k with
  | zero =>
    intro s h c hc
    rcases s with _ | ⟨a, _ | ⟨b, _ | ⟨d, t⟩⟩⟩ <;> simp [macUpperGroups] at h
    obtain ⟨ha, hb⟩ := h
    simp only [List.mem_cons, List.not_mem_nil, or_false] at hc
    rcases hc with hc | hc
    · subst hc; exact Or.inl ha
    · subst hc; exact Or.inl hb
  | succ k ih =>
    intro s h c hc
    rcases s with _ | ⟨a, _ | ⟨b, _ | ⟨d, t⟩⟩⟩ <;> simp [macUpperGroups] at h
    obtain ⟨⟨⟨ha, hb⟩, hd⟩, ht⟩ := h
    simp only [List.mem_cons] at hc
    rcases hc with hc | hc | hc | hc
    · subst hc; exact Or.inl ha
    · subst hc; exact Or.inl hb
    · subst hc; exact Or.inr hd
    · exact ih t ht c hc

/-- dropWhile is the identity when no element satisfies the predicate. -/
theorem dropWhile_false {p : Nat → Bool} : ∀ {l : List Nat},
    (∀ c ∈ l, p c = false) → l.dropWhile p = l := by
  intro l h
  cases l with
  | nil => rfl
  | cons a t =>
    rw [List.dropWhile_cons]
    simp [h a (List.mem_cons_self a t)]

/-- str.strip() is the identity on a string with no whitespace. -/
theorem pyStrip_eq_self {l : List Nat} (h : ∀ c ∈ l, isPySpace c = false) :
    pyStrip l = l := by
  unfold pyStrip
  rw [dropWhile_false h,
    dropWhile_false (fun c hc => h c (List.mem_reverse.mp hc)),
    List.reverse_reverse]

/-- A colon-free string splits into itself as the single part. -/
theorem splitColon_colonFree : ∀ (o : List Nat), (∀ c ∈ o, c ≠ 58) →
    splitColon o = [o] := by
  intro o
  induction o with
  | nil => intro h; rfl
  | cons a t ih =>
    intro h
    have ha : a ≠ 58 := h a (List.mem_cons_self a t)
    have ht := ih (fun c hc => h c (List.mem_cons_of_mem a hc))
    simp only [splitColon]
    rw [ht, if_neg ha]

/-- Splitting a colon-free part followed by a colon peels off that part. -/
theorem splitColon_append : ∀ (o rest : List Nat), (∀ c ∈ o, c ≠ 58) →
    splitColon (o ++ 58 :: rest) = o :: splitColon rest := by
  intro o
  induction o with
  | nil =>
    intro rest _
    simp only [List.nil_append, splitColon, if_pos]
  | cons a t ih =>
    intro rest h
    have ha : a ≠ 58 := h a (List.mem_cons_self a t)
    have ht := ih rest (fun c hc => h c (List.mem_cons_of_mem a hc))
    simp only [List.cons_append, splitColon, List.append_eq]
    rw [ht, if_neg ha]

/-- Claim C8: on every input accepted by is_valid_mac, normalize_mac is
idempotent and its result is an uppercase colon-separated six-octet hex
address. -/
theorem normalize_mac_idem_upper (s : List Nat) (h : is_valid_mac s = true) :
    normalize_mac (normalize_mac s) = normalize_mac s ∧
    macUpperMatch (normalize_mac s) = true := by
  unfold is_valid_mac macRegexMatch at h
  have hu : macUpperGroups 5 ((pyStrip s).map upperChar) = true :=
    macGroups_upper 5 (pyStrip s) h
  have hns : ∀ c ∈ (pyStrip s).map upperChar, isPySpace c = false :=
    fun c hc => upperHex_not_space c (macUpperGroups_chars 5 _ hu c hc)
  constructor
  · show pyUpper (pyStrip (pyUpper (pyStrip s))) = pyUpper (pyStrip s)
    rw [show pyUpper (pyStrip s) = (pyStrip s).map upperChar from rfl,
      pyStrip_eq_self hns]
    unfold pyUpper
    rw [List.map_map]
    exact List.map_congr_left fun a _ => upperChar_idem a
  · exact hu

/-- Claim C8 (witness): the lowercase, whitespace-padded valid address
" e0:b6:55:52:6c:00 " normalizes idempotently to an uppercase
colon-separated hex address. -/
theorem normalize_mac_idem_upper_witness :
    is_valid_mac sampleMacRaw = true ∧
    normalize_mac (normalize_mac sampleMacRaw) = normalize_mac sampleMacRaw ∧
    macUpperMatch (normalize_mac sampleMacRaw) = true := by
  refine ⟨by decide, ?_, ?_⟩
  · exact (normalize_mac_idem_upper sampleMacRaw (by decide)).1
  · exact (normalize_mac_idem_upper sampleMacRaw (by decide)).2

/-- Claim C9: for every address made of six colon-free octets, _mask_mac
keeps the first four octets visible and replaces the last two by asterisk
pairs. -/
theorem maskMac_first_four_visible (o1 o2 o3 o4 o5 o6 : List Nat)
    (h1 : ∀ c ∈ o1, c ≠ 58) (h2 : ∀ c ∈ o2, c ≠ 58) (h3 : ∀ c ∈ o3, c ≠ 58)
    (h4 : ∀ c ∈ o4, c ≠ 58) (h5 : ∀ c ∈ o5, c ≠ 58) (h6 : ∀ c ∈ o6, c ≠ 58) :
    maskMac (joinColon [o1, o2, o3, o4, o5, o6])
      = joinColon [o1, o2, o3, o4, [42, 42], [42, 42]] := by
  have hj : joinColon [o1, o2, o3, o4, o5, o6]
      = o1 ++ 58 :: (o2 ++ 58 :: (o3 ++ 58 :: (o4 ++ 58 :: (o5 ++ 58 :: o6)))) := rfl
  have hsplit : splitColon (joinColon [o1, o2, o3, o4, o5, o6])
      = [o1, o2, o3, o4, o5, o6] := by
    rw [hj, splitColon_append o1 _ h1, splitColon_append o2 _ h2,
      splitColon_append o3 _ h3, splitColon_append o4 _ h4,
      splitColon_append o5 _ h5, splitColon_colonFree o6 h6]
  have hne : joinColon [o1, o2, o3, o4, o5, o6] ≠ [] := by
    rw [hj]
    intro hcontra
    cases o1 <;> simp at hcontra
  unfold maskMac
  rw [if_neg hne]
  simp only [hsplit]
  rfl

/-- Claim C9 (witness): the address AA:BB:CC:DD:EE:FF masks to
AA:BB:CC:DD:pair-of-asterisks twice. -/
theorem maskMac_first_four_visible_witness : maskMac macAA = macAAMasked := by
  have h := maskMac_first_four_visible [65, 65] [66, 66] [67, 67] [68, 68]
    [69, 69] [70, 70] (by decide) (by decide) (by decide) (by decide)
    (by decide) (by decide)
  exact h

end MiPower
